import Mathlib

/-!
Shallow embedding of `reader2pinboard.py`, a script that syncs Readwise
Reader documents to Pinboard bookmarks, together with proofs about the
claims of its specification.

Modelling conventions:
* Python `None`-able string values are `Option String`; an absent JSON
  key is `none`.
* Python exceptions are `Except.error ()`: a function that can raise
  returns `Except Unit α` (paired with the resulting file-system state
  where the function mutates it).
* The watermark file (`lastrun`) is a `RunState`: `none` models an
  absent file, `some s` a file with content `s`.
* Network traffic is modelled by passing the sequence of server
  responses as a list: `none` is a request that fails with a transport
  or JSON-parse error (the Python `requests.get` / `response.json()`
  raising), `some body` a parsed response body.
* Python string slicing `s[:n]` and dict-key iteration are by code
  point / in insertion order; strings are Lean `String`, tag mappings
  are their key lists in insertion order.
-/

/-- Render a Python value inside an f-string: `None` prints as "None". -/
def pyStr : Option String → String
  | none => "None"
  | some s => s

/-- Python truthiness of an optional string: `None` and `""` are falsy. -/
def pyFalsy : Option String → Bool
  | none => true
  | some s => s = ""

/-- Python `s[:n]`: the first `n` code points of `s`. -/
def pyTrunc (s : String) (n : Nat) : String :=
  String.mk (s.data.take n)

/-- Python `tag.replace(' ', '')`: delete every space character. -/
def removeSpaces (s : String) : String :=
  String.mk (s.data.filter (fun c => c ≠ ' '))

/-- The fixed source tag prepended to every submission (`ADDITIONAL_TAGS`). -/
def ADDITIONAL_TAGS : String := ".from:Reader"

/-- State of the watermark file `LAST_RUN_FILE`: `none` = file absent,
`some s` = file exists with content `s`. -/
structure RunState where
  watermark : Option String
  deriving Repr, DecidableEq

/-- One document record returned by the Readwise Reader API.  `tags` is
the list of tag names: Python takes `list(tags.keys())` when the JSON
value is a dict, and dicts preserve insertion order, so both the dict
and the list representation are a list of tag strings here. -/
structure Document where
  title : Option String
  source_url : Option String
  category : Option String
  location : Option String
  tags : List String
  summary : Option String
  author : Option String
  site_name : Option String
  created_at : Option String
  deriving Repr, DecidableEq

/-- `get_last_run_timestamp`: read the watermark file; `FileNotFoundError`
maps to `None`.  (An existing empty file yields `""`, not `None`.) -/
def get_last_run_timestamp (s : RunState) : Option String :=
  s.watermark

/-- `set_last_run_timestamp(timestamp)`: `open(file, 'w')` first truncates
the file to empty; `file.write(timestamp)` then raises `TypeError` when
`timestamp` is `None` (write's argument must be `str`), leaving the file
truncated.  The result pairs the exception outcome with the state. -/
def set_last_run_timestamp (timestamp : Option String) (_s : RunState) :
    Except Unit Unit × RunState :=
  match timestamp with
  | none => (Except.error (), { watermark := some "" })
  | some v => (Except.ok (), { watermark := some v })

/-- A parsed `datetime.datetime` value: calendar fields plus the
timezone offset in minutes (`none` = naive datetime, no `tzinfo`). -/
structure PyDatetime where
  year : Nat
  month : Nat
  day : Nat
  hour : Nat
  minute : Nat
  second : Nat
  offsetMinutes : Option Int
  deriving Repr, DecidableEq

/-- Value of a decimal digit character (`int(ch)` for an ASCII digit,
anything else fails). -/
def digitVal (c : Char) : Option Nat :=
  if c = '0' then some 0
  else if c = '1' then some 1
  else if c = '2' then some 2
  else if c = '3' then some 3
  else if c = '4' then some 4
  else if c = '5' then some 5
  else if c = '6' then some 6
  else if c = '7' then some 7
  else if c = '8' then some 8
  else if c = '9' then some 9
  else none

/-- Two decimal digits. -/
def twoDigits (a b : Char) : Option Nat := do
  let x ← digitVal a
  let y ← digitVal b
  pure (10 * x + y)

/-- Four decimal digits. -/
def fourDigits (a b c d : Char) : Option Nat := do
  let x ← twoDigits a b
  let y ← twoDigits c d
  pure (100 * x + y)

/-- Gregorian leap-year rule. -/
def isLeap (y : Nat) : Bool :=
  y % 4 = 0 && (y % 100 ≠ 0 || y % 400 = 0)

/-- Number of days in a month. -/
def daysInMonth (y m : Nat) : Nat :=
  if m = 2 then (if isLeap y then 29 else 28)
  else if m = 4 ∨ m = 6 ∨ m = 9 ∨ m = 11 then 30
  else 31

/-- Construct a datetime, validating ranges the way `datetime.datetime`
does (out-of-range fields raise `ValueError`, i.e. yield `none`). -/
def mkDatetime (y mo d h mi se : Nat) (off : Option Int) : Option PyDatetime :=
  if 1 ≤ y ∧ y ≤ 9999 ∧ 1 ≤ mo ∧ mo ≤ 12 ∧ 1 ≤ d ∧ d ≤ daysInMonth y mo ∧
      h < 24 ∧ mi < 60 ∧ se < 60 then
    some ⟨y, mo, d, h, mi, se, off⟩
  else none

/-- Consume the 19 characters `YYYY-MM-DDTHH:MM:SS` and return the six
fields together with the remaining characters. -/
def parseCore : List Char → Option (Nat × Nat × Nat × Nat × Nat × Nat × List Char)
  | y1 :: y2 :: y3 :: y4 :: '-' :: mo1 :: mo2 :: '-' :: d1 :: d2 :: 'T' ::
      h1 :: h2 :: ':' :: mi1 :: mi2 :: ':' :: s1 :: s2 :: rest => do
    let y ← fourDigits y1 y2 y3 y4
    let mo ← twoDigits mo1 mo2
    let d ← twoDigits d1 d2
    let h ← twoDigits h1 h2
    let mi ← twoDigits mi1 mi2
    let se ← twoDigits s1 s2
    pure (y, mo, d, h, mi, se, rest)
  | _ => none

/-- Parse the timezone suffix: nothing (naive), a literal `Z` (UTC), or
`+HH:MM` / `-HH:MM` (fixed offset, at most 23:59 as `tzoffset` requires). -/
def parseOffset : List Char → Option (Option Int)
  | [] => some none
  | ['Z'] => some (some 0)
  | [sign, o1, o2, ':', o3, o4] =>
    match twoDigits o1 o2, twoDigits o3 o4 with
    | some oh, some om =>
      if oh < 24 ∧ om < 60 then
        if sign = '+' then some (some ((oh * 60 + om : Nat) : Int))
        else if sign = '-' then some (some (-((oh * 60 + om : Nat) : Int)))
        else none
      else none
    | _, _ => none
  | _ => none

/-- Model of `dateutil.parser.parse`, restricted to the ISO-8601 shapes
the source service emits: `YYYY-MM-DDTHH:MM:SS` optionally followed by
`Z` or `±HH:MM`.  An unparseable string raises (`none`). -/
def parseDatetime (s : String) : Option PyDatetime :=
  match parseCore s.data with
  | none => none
  | some (y, mo, d, h, mi, se, rest) =>
    match parseOffset rest with
    | none => none
    | some off => mkDatetime y mo d h mi se off

/-- Zero-padded two-digit decimal rendering. -/
def pad2 (n : Nat) : String :=
  if n < 10 then "0" ++ toString n else toString n

/-- Zero-padded four-digit decimal rendering (`%Y`), written as the
upper and lower two-digit halves; on the years 1..9999 that a
`datetime` can carry this is exactly the zero-padded decimal. -/
def pad4 (n : Nat) : String :=
  pad2 (n / 100) ++ pad2 (n % 100)

/-- `datetime.strftime('%Y-%m-%dT%H:%M:%SZ')`: formats the stored
calendar fields and appends a literal `Z`; the `tzinfo` offset plays no
part in any of these format codes. -/
def strftimeZ (d : PyDatetime) : String :=
  pad4 d.year ++ "-" ++ pad2 d.month ++ "-" ++ pad2 d.day ++ "T" ++
    pad2 d.hour ++ ":" ++ pad2 d.minute ++ ":" ++ pad2 d.second ++ "Z"

/-- `format_created_at`: parse the source timestamp and render it with
`strftime('%Y-%m-%dT%H:%M:%SZ')`. -/
def format_created_at (created_at : String) : Option String :=
  (parseDatetime created_at).map strftimeZ

/-- Calendar predecessor of a day. -/
def prevDay (y m d : Nat) : Nat × Nat × Nat :=
  if 1 < d then (y, m, d - 1)
  else if 1 < m then (y, m - 1, daysInMonth y (m - 1))
  else (y - 1, 12, 31)

/-- Calendar successor of a day. -/
def nextDay (y m d : Nat) : Nat × Nat × Nat :=
  if d < daysInMonth y m then (y, m, d + 1)
  else if m < 12 then (y, m + 1, 1)
  else (y + 1, 1, 1)

/-- Shift a datetime to UTC: subtract the offset from the wall-clock
time, borrowing or carrying at most one calendar day (offsets are below
24 hours).  A naive datetime is treated as already in UTC. -/
def toUTC (dt : PyDatetime) : PyDatetime :=
  let off : Int := dt.offsetMinutes.getD 0
  let tot : Int := (dt.hour : Int) * 60 + (dt.minute : Int) - off
  if 0 ≤ tot ∧ tot < 1440 then
    { dt with
      hour := tot.toNat / 60
      minute := tot.toNat % 60
      offsetMinutes := some 0 }
  else if tot < 0 then
    let t2 := (tot + 1440).toNat
    let ymd := prevDay dt.year dt.month dt.day
    { year := ymd.1
      month := ymd.2.1
      day := ymd.2.2
      hour := t2 / 60
      minute := t2 % 60
      second := dt.second
      offsetMinutes := some 0 }
  else
    let t2 := (tot - 1440).toNat
    let ymd := nextDay dt.year dt.month dt.day
    { year := ymd.1
      month := ymd.2.1
      day := ymd.2.2
      hour := t2 / 60
      minute := t2 % 60
      second := dt.second
      offsetMinutes := some 0 }

/-- The datetime transform as the spec words it: parse the timestamp and
reformat THAT INSTANT to strict `YYYY-MM-DDTHH:MM:SSZ` in UTC, i.e.
convert to UTC before formatting.  Kept separate from
`format_created_at` (the code's transform) to compare the two. -/
def format_created_at_utc (created_at : String) : Option String :=
  (parseDatetime created_at).map (fun d => strftimeZ (toUTC d))

/-- One parsed response body of the Readwise list endpoint: an optional
`results` array (the key may be missing) and an optional
`nextPageCursor`. -/
structure PageBody (α : Type) where
  results : Option (List α)
  nextPageCursor : Option String
  deriving Repr, DecidableEq

/-- Python truthiness of the cursor: pagination continues only when
`nextPageCursor` is present and non-empty. -/
def cursorTruthy : Option String → Bool
  | none => false
  | some s => s ≠ ""

/-- The pagination loop of `fetch_reader_document_list_api`.  Each
iteration consumes the next server response; `none` is a request whose
transport or JSON decoding raises, which the loop does not catch, so
the exception propagates with the accumulator lost.  `acc` is
`full_data`, `n` counts requests made.  An exhausted response list
(the model has no further scripted response) is also an error. -/
def fetchGo {α : Type} : List (Option (PageBody α)) → List α → Nat →
    Except Unit (List α) × Nat
  | [], _, n => (Except.error (), n)
  | none :: _, _, n => (Except.error (), n + 1)
  | some p :: rest, acc, n =>
    let acc2 := acc ++ p.results.getD []
    if cursorTruthy p.nextPageCursor then fetchGo rest acc2 (n + 1)
    else (Except.ok acc2, n + 1)

/-- `fetch_reader_document_list_api`: run the pagination loop from an
empty accumulator, returning the collected documents (or the
propagated exception) and the number of requests issued. -/
def fetch_reader_document_list_api {α : Type}
    (responses : List (Option (PageBody α))) : Except Unit (List α) × Nat :=
  fetchGo responses [] 0

/-- The query parameters sent to the Pinboard `posts/add` endpoint.
`auth_token` (an environment credential) is not modelled. -/
structure PinboardParams where
  format : String
  url : Option String
  description : String
  extended : String
  tags : String
  replace : String
  dt : String
  deriving Repr, DecidableEq

/-- Observable outcome of one `add_bookmark_to_pinboard` call that does
not raise: the document was skipped with a printed log line, the dry-run
lines were printed, or a submission request was sent to Pinboard. -/
inductive BookmarkResult : Type
  | ignored (logLine : String)
  | dryRunPrinted (lines : List String)
  | submitted (params : PinboardParams)
  deriving Repr, DecidableEq

/-- `add_bookmark_to_pinboard(title, url, document, tags, created_at)`.

* `tags` has already been turned into a key list (the `isinstance(tags,
  dict)` branch); `tags_str` strips every space from each tag and joins
  with single spaces.
* The exclusion filter fires on `category == 'highlight'`,
  `location == 'feed'`, or a falsy `source_url`, printing one log line
  and returning without any request.
* In dry-run mode the derived fields are printed, untruncated;
  `format_created_at` can raise (bad or missing `created_at`).
* Otherwise the request parameters are built: evaluating
  `title[:255]` raises `TypeError` when `title` is `None`, then
  `format_created_at(created_at)` may raise; on success the request is
  sent (the HTTP status only affects a printed line, then the 3-second
  rate-limit sleep). -/
def add_bookmark_to_pinboard (dryRun : Bool) (title url : Option String)
    (doc : Document) (tags : List String) (created_at : Option String) :
    Except Unit BookmarkResult :=
  let tags_str := String.intercalate " " (tags.map removeSpaces)
  if doc.category = some "highlight" ∨ doc.location = some "feed" ∨
      pyFalsy doc.source_url then
    Except.ok (BookmarkResult.ignored
      ("Ignoring document: " ++ pyStr title ++ " (category: " ++
        pyStr doc.category ++ ", location: " ++ pyStr doc.location ++
        ", source_url: " ++ pyStr doc.source_url ++ ")"))
  else
    let extended_info := doc.summary.getD "" ++ "\nby " ++
      doc.author.getD "" ++ ", " ++ doc.site_name.getD ""
    if dryRun then
      match created_at with
      | none => Except.error ()
      | some ca =>
        match format_created_at ca with
        | none => Except.error ()
        | some dtStr => Except.ok (BookmarkResult.dryRunPrinted
            [ "Title: " ++ pyStr title
            , "URL: " ++ pyStr url
            , "Extended: " ++ extended_info
            , "Tags: " ++ tags_str
            , "dt: " ++ dtStr
            , "Adding bookmark to Pinboard (dry run)" ])
    else
      match title with
      | none => Except.error ()
      | some t =>
        match created_at with
        | none => Except.error ()
        | some ca =>
          match format_created_at ca with
          | none => Except.error ()
          | some dtStr => Except.ok (BookmarkResult.submitted
              { format := "json"
                url := url
                description := pyTrunc t 255
                extended := pyTrunc extended_info 65536
                tags := ADDITIONAL_TAGS ++ " " ++ tags_str
                replace := "no"
                dt := dtStr })

/-- `get_new_readwise_documents`: read the watermark, fetch; when the
fetched list is truthy (non-empty) write the current time to the
watermark file and return the list; when it is empty print a failure
line and return `[]` leaving the watermark alone; a fetch exception
propagates, also leaving the watermark alone. -/
def get_new_readwise_documents
    (responses : List (Option (PageBody Document))) (now : String)
    (s : RunState) : Except Unit (List Document) × RunState :=
  match (fetch_reader_document_list_api responses).1 with
  | Except.error e => (Except.error e, s)
  | Except.ok new_data =>
    if new_data.isEmpty then (Except.ok [], s)
    else (Except.ok new_data, { watermark := some now })

/-- Outcome of one iteration of the `__main__` per-document loop:
either the bookmark call completed with an observable result, or it
raised and the bare `except: pass` swallowed the exception. -/
inductive LoopOutcome : Type
  | completed (r : BookmarkResult)
  | swallowed
  deriving Repr, DecidableEq

/-- One iteration body: pull `title`, `source_url`, `tags`, `created_at`
out of the document and call `add_bookmark_to_pinboard`. -/
def processDocument (dryRun : Bool) (doc : Document) :
    Except Unit BookmarkResult :=
  add_bookmark_to_pinboard dryRun doc.title doc.source_url doc doc.tags
    doc.created_at

/-- The `__main__` for-loop: every document is processed in order and
any exception from its iteration is swallowed by `except: pass`, so the
loop itself never raises and never stops early. -/
def runLoop (dryRun : Bool) (docs : List Document) : List LoopOutcome :=
  docs.map (fun d =>
    match processDocument dryRun d with
    | Except.ok r => LoopOutcome.completed r
    | Except.error _ => LoopOutcome.swallowed)

/-- Decidable equality for `Except`, so that run results can be
compared with `decide`. -/
instance {ε α : Type} [DecidableEq ε] [DecidableEq α] :
    DecidableEq (Except ε α)
  | Except.error a, Except.error b =>
    if h : a = b then isTrue (by rw [h])
    else isFalse (by intro hc; cases hc; exact h rfl)
  | Except.error _, Except.ok _ => isFalse (by intro hc; cases hc)
  | Except.ok _, Except.error _ => isFalse (by intro hc; cases hc)
  | Except.ok a, Except.ok b =>
    if h : a = b then isTrue (by rw [h])
    else isFalse (by intro hc; cases hc; exact h rfl)

/-- Result of one whole run of the script: the per-document outcomes
(or the uncaught exception that killed the process), the final state of
the watermark file, and whether the Readwise fetch was ever attempted. -/
structure MainResult where
  outcome : Except Unit (List LoopOutcome)
  finalState : RunState
  fetchAttempted : Bool
  deriving Repr, DecidableEq

/-- The tail of `__main__` after the `--all` handling: fetch (updating
the watermark on a truthy result) and run the per-document loop. -/
def mainAfterAll (dryRun : Bool)
    (responses : List (Option (PageBody Document))) (now : String)
    (s : RunState) : MainResult :=
  match get_new_readwise_documents responses now s with
  | (Except.error e, s2) =>
    { outcome := Except.error e, finalState := s2, fetchAttempted := true }
  | (Except.ok docs, s2) =>
    { outcome := Except.ok (runLoop dryRun docs), finalState := s2,
      fetchAttempted := true }

/-- `__main__`: parse flags; with `--all`, call
`set_last_run_timestamp(None)` first — whose `TypeError` is uncaught,
killing the process before any fetch — then fetch and process. -/
def mainRun (allFlag dryRun : Bool)
    (responses : List (Option (PageBody Document))) (now : String)
    (s : RunState) : MainResult :=
  if allFlag then
    match set_last_run_timestamp none s with
    | (Except.error e, s1) =>
      { outcome := Except.error e, finalState := s1, fetchAttempted := false }
    | (Except.ok _, s1) => mainAfterAll dryRun responses now s1
  else mainAfterAll dryRun responses now s

/-- The `extended_info` string built for one document:
`f"{summary}\nby {author}, {site_name}"` with `''` defaults for absent
keys. -/
def extended_info_of (doc : Document) : String :=
  doc.summary.getD "" ++ "\nby " ++ doc.author.getD "" ++ ", " ++
    doc.site_name.getD ""

/-- A well-formed, export-eligible sample document. -/
def eligDoc : Document :=
  { title := some "T"
    source_url := some "http://e/"
    category := some "article"
    location := some "new"
    tags := ["a", "b x"]
    summary := some "S"
    author := some "A"
    site_name := some "N"
    created_at := some "2023-05-01T12:00:00+00:00" }

/-- A sample document the exclusion filter rejects (a highlight). -/
def hlDoc : Document :=
  { title := some "T"
    source_url := some "http://h/"
    category := some "highlight"
    location := some "new"
    tags := []
    summary := none
    author := none
    site_name := none
    created_at := none }

/-- A sample document whose processing raises: it passes the filter but
has no title, so `title[:255]` raises `TypeError` in the submit path. -/
def badDoc : Document :=
  { title := none
    source_url := some "http://b/"
    category := some "article"
    location := some "new"
    tags := []
    summary := none
    author := none
    site_name := none
    created_at := some "2023-05-01T12:00:00+00:00" }

/-- The request parameters produced for `eligDoc`. -/
def sampleParams : PinboardParams :=
  { format := "json"
    url := some "http://e/"
    description := pyTrunc "T" 255
    extended := pyTrunc (extended_info_of eligDoc) 65536
    tags := ADDITIONAL_TAGS ++ " " ++
      String.intercalate " " (["a", "b x"].map removeSpaces)
    replace := "no"
    dt := "2023-05-01T12:00:00Z" }

/-- Truncation never exceeds the requested length. -/
lemma pyTrunc_length_le (s : String) (n : Nat) : (pyTrunc s n).length ≤ n := by
  show (s.data.take n).length ≤ n
  rw [List.length_take]
  exact min_le_left n s.data.length

/-- C1: The watermark file is overwritten with the current wall-clock
time if and only if the fetch returns a non-empty document sequence;
an empty result or a fetch exception leaves the stored watermark
unchanged, so the next run queries the same window. -/
theorem watermark_updated_iff_nonempty_fetch
    (responses : List (Option (PageBody Document))) (now : String)
    (s : RunState) :
    (∀ ds, (fetch_reader_document_list_api responses).1 = Except.ok ds →
      ds ≠ [] →
      get_new_readwise_documents responses now s =
        (Except.ok ds, { watermark := some now })) ∧
    ((fetch_reader_document_list_api responses).1 = Except.ok [] →
      get_new_readwise_documents responses now s = (Except.ok [], s)) ∧
    ((fetch_reader_document_list_api responses).1 = Except.error () →
      get_new_readwise_documents responses now s = (Except.error (), s)) ∧
    ((get_new_readwise_documents responses now s).2 ≠ s →
      (get_new_readwise_documents responses now s).2 =
        { watermark := some now } ∧
      ∃ ds, (fetch_reader_document_list_api responses).1 = Except.ok ds ∧
        ds ≠ []) := by
  refine ⟨?_, ?_, ?_, ?_⟩
  · intro ds hok hne
    unfold get_new_readwise_documents
    rw [hok]
    cases ds with
    | nil => exact absurd rfl hne
    | cons a l => rfl
  · intro hok
    unfold get_new_readwise_documents
    rw [hok]
    rfl
  · intro herr
    unfold get_new_readwise_documents
    rw [herr]
  · intro hch
    unfold get_new_readwise_documents at hch ⊢
    cases hf : (fetch_reader_document_list_api responses).1 with
    | error e =>
      rw [hf] at hch
      exact absurd rfl hch
    | ok ds =>
      rw [hf] at hch
      cases ds with
      | nil => exact absurd rfl hch
      | cons a l => exact ⟨rfl, a :: l, rfl, by simp⟩

/-- Witness for C1 at concrete inputs: a one-page non-empty fetch
overwrites the watermark, a failing fetch leaves it unchanged. -/
theorem watermark_updated_iff_nonempty_fetch_witness :
    get_new_readwise_documents [some ⟨some [eligDoc], none⟩] "T1"
      { watermark := some "T0" } =
      (Except.ok [eligDoc], { watermark := some "T1" }) ∧
    get_new_readwise_documents [none] "T1" { watermark := some "T0" } =
      (Except.error (), { watermark := some "T0" }) :=
  ⟨(watermark_updated_iff_nonempty_fetch [some ⟨some [eligDoc], none⟩] "T1"
      { watermark := some "T0" }).1 [eligDoc] (by decide) (by decide),
   (watermark_updated_iff_nonempty_fetch [none] "T1"
      { watermark := some "T0" }).2.2.1 (by decide)⟩

/-- C2 (the code, evaluated at the failing input): invoking with `--all`
calls `set_last_run_timestamp(None)`, which truncates the watermark file
and then raises an uncaught `TypeError` (`write()` needs a `str`), so
the process dies before any fetch is attempted — the fetch never
receives `updatedAfter = None`, and the store does not accept `None`. -/
theorem all_flag_aborts_before_fetch (dryRun : Bool)
    (responses : List (Option (PageBody Document))) (now : String)
    (s : RunState) :
    mainRun true dryRun responses now s =
      { outcome := Except.error ()
        finalState := { watermark := some "" }
        fetchAttempted := false } := rfl

/-- C3: a document that is a highlight, or lives in the feed, or has a
falsy source URL is skipped — no submission happens, only the log line
naming the title and the triggering field values is printed. -/
theorem excluded_document_skipped (dryRun : Bool) (title url : Option String)
    (doc : Document) (tags : List String) (created_at : Option String)
    (h : doc.category = some "highlight" ∨ doc.location = some "feed" ∨
      pyFalsy doc.source_url = true) :
    add_bookmark_to_pinboard dryRun title url doc tags created_at =
      Except.ok (BookmarkResult.ignored
        ("Ignoring document: " ++ pyStr title ++ " (category: " ++
          pyStr doc.category ++ ", location: " ++ pyStr doc.location ++
          ", source_url: " ++ pyStr doc.source_url ++ ")")) := by
  rcases h with h | h | h <;> simp [add_bookmark_to_pinboard, h]

/-- Witness for C3: a highlight document is skipped with the exact log
line. -/
theorem excluded_document_skipped_witness :
    add_bookmark_to_pinboard false (some "T") (some "http://h/") hlDoc []
      none =
      Except.ok (BookmarkResult.ignored
        "Ignoring document: T (category: highlight, location: new, source_url: http://h/)") := by
  rw [excluded_document_skipped false (some "T") (some "http://h/") hlDoc []
    none (Or.inl rfl)]
  rfl

/-- C9: the bare `try/except: pass` around the loop body means one
raising document is recorded as swallowed while every document before
and after it is still processed, and the loop itself never raises. -/
theorem bad_document_does_not_abort_batch (dryRun : Bool)
    (docs1 : List Document) (d : Document) (docs2 : List Document)
    (h : processDocument dryRun d = Except.error ()) :
    runLoop dryRun (docs1 ++ d :: docs2) =
      runLoop dryRun docs1 ++
        LoopOutcome.swallowed :: runLoop dryRun docs2 ∧
    (runLoop dryRun (docs1 ++ d :: docs2)).length =
      docs1.length + 1 + docs2.length := by
  constructor
  · simp only [runLoop, List.map_append, List.map_cons, h]
  · simp only [runLoop, List.length_map, List.length_append,
      List.length_cons]
    omega

/-- Witness for C9: a titleless document raises in the submit path; the
documents on both sides of it are still processed. -/
theorem bad_document_does_not_abort_batch_witness :
    runLoop false ([hlDoc] ++ badDoc :: [hlDoc]) =
      runLoop false [hlDoc] ++
        LoopOutcome.swallowed :: runLoop false [hlDoc] ∧
    (runLoop false ([hlDoc] ++ badDoc :: [hlDoc])).length = 1 + 1 + 1 :=
  bad_document_does_not_abort_batch false [hlDoc] badDoc [hlDoc] (by decide)

/-- Running the pagination loop through a block of successful pages that
all carry a truthy cursor appends their result lists to the accumulator,
in order, costing one request per page. -/
lemma fetchGo_good_block {α : Type} (ps : List (PageBody α))
    (tail : List (Option (PageBody α))) (acc : List α) (n : Nat)
    (h : ∀ q ∈ ps, cursorTruthy q.nextPageCursor = true) :
    fetchGo (ps.map some ++ tail) acc n =
      fetchGo tail
        (acc ++ (ps.map (fun q => q.results.getD [])).flatten)
        (n + ps.length) := by
  induction ps generalizing acc n with
  | nil => simp
  | cons p ps ih =>
    have hp := h p (List.mem_cons_self p ps)
    have step : fetchGo ((p :: ps).map some ++ tail) acc n =
        fetchGo (ps.map some ++ tail) (acc ++ p.results.getD []) (n + 1) := by
      show (if cursorTruthy p.nextPageCursor = true then
          fetchGo (ps.map some ++ tail) (acc ++ p.results.getD []) (n + 1)
        else (Except.ok (acc ++ p.results.getD []), n + 1)) = _
      rw [hp]
      exact if_pos rfl
    rw [step, ih (acc ++ p.results.getD []) (n + 1)
      (fun q hq => h q (List.mem_cons_of_mem p hq)),
      Nat.add_right_comm n 1 ps.length]
    simp only [List.map_cons, List.flatten_cons, List.length_cons,
      List.append_assoc, Nat.add_assoc]

/-- C6: `fetch_reader_document_list_api` accumulates every page's
results in server order, one request per page, stopping at the first
response whose cursor is not truthy; in particular the two-page mock
(page 1: two results and cursor "X"; page 2: one result, no cursor)
yields exactly the three documents in page order after two requests. -/
theorem fetch_accumulates_pages {α : Type} (ps : List (PageBody α))
    (p : PageBody α)
    (h : ∀ q ∈ ps, cursorTruthy q.nextPageCursor = true)
    (hp : cursorTruthy p.nextPageCursor = false) :
    fetch_reader_document_list_api ((ps ++ [p]).map some) =
      (Except.ok (((ps ++ [p]).map (fun q => q.results.getD [])).flatten),
        ps.length + 1) ∧
    fetch_reader_document_list_api
      [some ({ results := some [1, 2], nextPageCursor := some "X" } :
          PageBody Nat),
        some { results := some [3], nextPageCursor := none }] =
      (Except.ok [1, 2, 3], 2) := by
  constructor
  · unfold fetch_reader_document_list_api
    rw [List.map_append, fetchGo_good_block ps ([p].map some) [] 0 h]
    show (if cursorTruthy p.nextPageCursor = true then
        fetchGo [] ([] ++ (ps.map fun q => q.results.getD []).flatten ++
          p.results.getD []) (0 + ps.length + 1)
      else (Except.ok ([] ++ (ps.map fun q => q.results.getD []).flatten ++
          p.results.getD []), 0 + ps.length + 1)) = _
    rw [hp]
    simp [List.append_assoc]
  · decide

/-- Witness for C6 at a concrete two-page source. -/
theorem fetch_accumulates_pages_witness :
    fetch_reader_document_list_api
      ((([{ results := some [5], nextPageCursor := some "c" }] :
          List (PageBody Nat)) ++
        ([{ results := some [7], nextPageCursor := none }] :
          List (PageBody Nat))).map some) =
      (Except.ok [5, 7], 2) := by
  have h := (fetch_accumulates_pages
    ([{ results := some [5], nextPageCursor := some "c" }] :
      List (PageBody Nat))
    ({ results := some [7], nextPageCursor := none } : PageBody Nat)
    (by decide) (by decide)).1
  exact h.trans (by decide)

/-- C4 counterexample: when the second page request fails, the fetch
does NOT return the two documents accumulated from the first page — the
exception propagates instead. -/
theorem fetch_error_not_partial_cx :
    (fetch_reader_document_list_api
      [some ({ results := some [1, 2], nextPageCursor := some "X" } :
          PageBody Nat), none]).1 =
      Except.error () ∧
    (fetch_reader_document_list_api
      [some ({ results := some [1, 2], nextPageCursor := some "X" } :
          PageBody Nat), none]).1 ≠
      Except.ok [1, 2] := by
  decide

/-- C4 as amended: a transport or JSON-parse failure on any page request
is not caught inside the pagination loop; the exception propagates to
the caller and whatever was accumulated so far is lost rather than
returned. -/
theorem fetch_error_propagates {α : Type} (ps : List (PageBody α))
    (rest : List (Option (PageBody α)))
    (h : ∀ q ∈ ps, cursorTruthy q.nextPageCursor = true) :
    fetch_reader_document_list_api (ps.map some ++ none :: rest) =
      (Except.error (), ps.length + 1) := by
  unfold fetch_reader_document_list_api
  rw [fetchGo_good_block ps (none :: rest) [] 0 h]
  simp [fetchGo]

/-- Witness for C4's amended claim: one good page then a failing
request gives a propagated error after two requests. -/
theorem fetch_error_propagates_witness :
    fetch_reader_document_list_api
      (([{ results := some [9], nextPageCursor := some "c" }] :
        List (PageBody Nat)).map some ++ none :: []) =
      (Except.error (), 2) := by
  have h := fetch_error_propagates
    ([{ results := some [9], nextPageCursor := some "c" }] :
      List (PageBody Nat)) [] (by decide)
  exact h.trans (by decide)

/-- Inversion of the submit path: whenever
`add_bookmark_to_pinboard` reports a submission, the request parameters
are exactly the ones line 111-120 of the script builds. -/
lemma add_bookmark_submit_inversion (url : Option String) (doc : Document)
    (tags : List String) (t ca : String) (p : PinboardParams)
    (hsub : add_bookmark_to_pinboard false (some t) url doc tags (some ca) =
      Except.ok (BookmarkResult.submitted p)) :
    ∃ dtStr, format_created_at ca = some dtStr ∧
      p = { format := "json"
            url := url
            description := pyTrunc t 255
            extended := pyTrunc (extended_info_of doc) 65536
            tags := ADDITIONAL_TAGS ++ " " ++
              String.intercalate " " (tags.map removeSpaces)
            replace := "no"
            dt := dtStr } := by
  unfold add_bookmark_to_pinboard at hsub
  split at hsub
  · exact absurd hsub (by simp)
  · cases hfc : format_created_at ca with
    | none =>
      simp only [Bool.false_eq_true, if_false, hfc] at hsub
      cases hsub
    | some dtStr =>
      simp only [Bool.false_eq_true, if_false, hfc] at hsub
      refine ⟨dtStr, rfl, ?_⟩
      exact (BookmarkResult.submitted.inj (Except.ok.inj hsub)).symm

/-- C7: for an eligible document with tag mapping keys "a" and "b x",
the submitted tags string is exactly `".from:Reader a bx"`: keys in
order, spaces stripped from each tag, single-space joined, fixed source
tag prepended. -/
theorem tags_string_construction (title url : Option String)
    (doc : Document) (t ca dtStr : String)
    (hc : ¬ doc.category = some "highlight")
    (hl : ¬ doc.location = some "feed")
    (hu : pyFalsy doc.source_url = false)
    (ht : title = some t)
    (hca : format_created_at ca = some dtStr) :
    ∃ p, add_bookmark_to_pinboard false title url doc ["a", "b x"]
        (some ca) = Except.ok (BookmarkResult.submitted p) ∧
      p.tags = ".from:Reader a bx" := by
  subst ht
  refine ⟨{ format := "json"
            url := url
            description := pyTrunc t 255
            extended := pyTrunc (extended_info_of doc) 65536
            tags := ADDITIONAL_TAGS ++ " " ++
              String.intercalate " " (["a", "b x"].map removeSpaces)
            replace := "no"
            dt := dtStr }, ?_, ?_⟩
  · unfold add_bookmark_to_pinboard
    rw [if_neg (by simp [hc, hl, hu])]
    simp [hca, extended_info_of]
  · rfl

/-- Witness for C7 on a concrete eligible document. -/
theorem tags_string_construction_witness :
    ∃ p, add_bookmark_to_pinboard false (some "T") (some "http://e/")
        eligDoc ["a", "b x"] (some "2023-05-01T12:00:00+00:00") =
      Except.ok (BookmarkResult.submitted p) ∧
      p.tags = ".from:Reader a bx" :=
  tags_string_construction (some "T") (some "http://e/") eligDoc "T"
    "2023-05-01T12:00:00+00:00" "2023-05-01T12:00:00Z"
    (by decide) (by decide) (by decide) rfl (by decide)

/-- C8: every submission that actually goes out carries
`description = title[:255]` and an `extended` field of at most 65536
units. -/
theorem submission_truncation_bounds (url : Option String)
    (doc : Document) (tags : List String) (t ca : String)
    (p : PinboardParams)
    (hsub : add_bookmark_to_pinboard false (some t) url doc tags
      (some ca) = Except.ok (BookmarkResult.submitted p)) :
    p.description = pyTrunc t 255 ∧ p.extended.length ≤ 65536 := by
  obtain ⟨dtStr, _, hp⟩ :=
    add_bookmark_submit_inversion url doc tags t ca p hsub
  subst hp
  exact ⟨rfl, pyTrunc_length_le _ _⟩

/-- Witness for C8 on the concrete eligible document. -/
theorem submission_truncation_bounds_witness :
    sampleParams.description = pyTrunc "T" 255 ∧
    sampleParams.extended.length ≤ 65536 :=
  submission_truncation_bounds (some "http://e/") eligDoc ["a", "b x"]
    "T" "2023-05-01T12:00:00+00:00" sampleParams (by decide)

/-- A 300-character title, longer than the 255-unit limit. -/
def tLong : String := String.mk (List.replicate 300 'a')

/-- The long-titled eligible document used to witness C10. -/
def longDoc : Document := { eligDoc with title := some tLong }

/-- C10: in dry-run mode the printed title and extended text are the
full, untruncated strings; the 255/65536-unit truncations apply only to
the parameters of the network submission. -/
theorem dry_run_untruncated (url : Option String) (doc : Document)
    (tags : List String) (t ca dtStr : String)
    (hc : ¬ doc.category = some "highlight")
    (hl : ¬ doc.location = some "feed")
    (hu : pyFalsy doc.source_url = false)
    (hca : format_created_at ca = some dtStr) :
    add_bookmark_to_pinboard true (some t) url doc tags (some ca) =
      Except.ok (BookmarkResult.dryRunPrinted
        [ "Title: " ++ t
        , "URL: " ++ pyStr url
        , "Extended: " ++ extended_info_of doc
        , "Tags: " ++ String.intercalate " " (tags.map removeSpaces)
        , "dt: " ++ dtStr
        , "Adding bookmark to Pinboard (dry run)" ]) ∧
    (∀ p, add_bookmark_to_pinboard false (some t) url doc tags
        (some ca) = Except.ok (BookmarkResult.submitted p) →
      p.description = pyTrunc t 255 ∧
      p.extended = pyTrunc (extended_info_of doc) 65536) := by
  constructor
  · unfold add_bookmark_to_pinboard
    rw [if_neg (by simp [hc, hl, hu])]
    simp [hca, extended_info_of, pyStr]
  · intro p hp
    obtain ⟨dtStr2, _, hpe⟩ :=
      add_bookmark_submit_inversion url doc tags t ca p hp
    subst hpe
    exact ⟨rfl, rfl⟩

/-- Witness for C10: with a 300-character title the dry-run output
carries the whole title while the submit path truncates it. -/
theorem dry_run_untruncated_witness :
    add_bookmark_to_pinboard true (some tLong) (some "http://e/") longDoc
      ["a", "b x"] (some "2023-05-01T12:00:00+00:00") =
      Except.ok (BookmarkResult.dryRunPrinted
        [ "Title: " ++ tLong
        , "URL: " ++ pyStr (some "http://e/")
        , "Extended: " ++ extended_info_of longDoc
        , "Tags: " ++ String.intercalate " " (["a", "b x"].map removeSpaces)
        , "dt: " ++ "2023-05-01T12:00:00Z"
        , "Adding bookmark to Pinboard (dry run)" ]) ∧
    (∀ p, add_bookmark_to_pinboard false (some tLong) (some "http://e/")
        longDoc ["a", "b x"] (some "2023-05-01T12:00:00+00:00") =
        Except.ok (BookmarkResult.submitted p) →
      p.description = pyTrunc tLong 255 ∧
      p.extended = pyTrunc (extended_info_of longDoc) 65536) :=
  dry_run_untruncated (some "http://e/") longDoc ["a", "b x"] tLong
    "2023-05-01T12:00:00+00:00" "2023-05-01T12:00:00Z"
    (by decide) (by decide) (by decide) (by decide)

/-- Equal character data means equal strings. -/
lemma string_eq_of_data_eq (s t : String) (h : s.data = t.data) : s = t := by
  cases s
  cases t
  exact congrArg String.mk h

set_option maxRecDepth 4000 in
/-- The two-digit rendering of a value below 100 has exactly two
characters. -/
lemma pad2_data_len : ∀ n < 100, (pad2 n).data.length = 2 := by decide

set_option maxRecDepth 4000 in
/-- Two-digit renderings of distinct values below 100 differ. -/
lemma pad2_inj : ∀ a < 100, ∀ b < 100, pad2 a = pad2 b → a = b := by decide

/-- Peel one two-digit chunk off an equality of character streams. -/
lemma pad2_chunk_inj (a b : Nat) (r1 r2 : List Char) (ha : a < 100)
    (hb : b < 100) (h : (pad2 a).data ++ r1 = (pad2 b).data ++ r2) :
    a = b ∧ r1 = r2 := by
  have l1 := pad2_data_len a ha
  have l2 := pad2_data_len b hb
  have h2 := List.append_inj h (l1.trans l2.symm)
  exact ⟨pad2_inj a ha b hb (string_eq_of_data_eq _ _ h2.1), h2.2⟩

/-- The `strftime` output determines year, month, day, hour and minute,
as long as all fields are in range. -/
lemma strftimeZ_fields_eq (d1 : PyDatetime)
    (yB moB ddB hhB miB ssB : Nat) (offB : Option Int)
    (hA1 : d1.year < 10000) (hA2 : yB < 10000)
    (hB1 : d1.month < 100) (hB2 : moB < 100)
    (hC1 : d1.day < 100) (hC2 : ddB < 100)
    (hD1 : d1.hour < 100) (hD2 : hhB < 100)
    (hE1 : d1.minute < 100) (hE2 : miB < 100)
    (h : strftimeZ d1 = strftimeZ ⟨yB, moB, ddB, hhB, miB, ssB, offB⟩) :
    d1.year = yB ∧ d1.month = moB ∧ d1.day = ddB ∧
    d1.hour = hhB ∧ d1.minute = miB := by
  have hdata := congrArg String.data h
  have sepDash : ("-" : String).data = ['-'] := rfl
  have sepT : ("T" : String).data = ['T'] := rfl
  have sepColon : (":" : String).data = [':'] := rfl
  simp only [strftimeZ, pad4, String.data_append, sepDash, sepT, sepColon,
    List.cons_append, List.nil_append, List.append_assoc] at hdata
  obtain ⟨e1, hdata⟩ := pad2_chunk_inj _ _ _ _ (by omega) (by omega) hdata
  obtain ⟨e2, hdata⟩ := pad2_chunk_inj _ _ _ _ (by omega) (by omega) hdata
  injection hdata with hsep hdata
  obtain ⟨e3, hdata⟩ := pad2_chunk_inj _ _ _ _ hB1 hB2 hdata
  injection hdata with hsep2 hdata
  obtain ⟨e4, hdata⟩ := pad2_chunk_inj _ _ _ _ hC1 hC2 hdata
  injection hdata with hsep3 hdata
  obtain ⟨e5, hdata⟩ := pad2_chunk_inj _ _ _ _ hD1 hD2 hdata
  injection hdata with hsep4 hdata
  obtain ⟨e6, hdata⟩ := pad2_chunk_inj _ _ _ _ hE1 hE2 hdata
  exact ⟨by omega, e3, e4, e5, e6⟩

/-- A digit character decodes to a value below ten. -/
lemma digitVal_lt (c : Char) (v : Nat) (h : digitVal c = some v) :
    v < 10 := by
  unfold digitVal at h
  repeat' split at h
  all_goals cases h <;> omega

/-- `twoDigits` decodes to a value below one hundred. -/
lemma twoDigits_lt (a b : Char) (n : Nat) (h : twoDigits a b = some n) :
    n < 100 := by
  cases ha : digitVal a with
  | none => simp [twoDigits, ha] at h
  | some x =>
    cases hb : digitVal b with
    | none => simp [twoDigits, ha, hb] at h
    | some y =>
      have hx := digitVal_lt a x ha
      have hy := digitVal_lt b y hb
      simp [twoDigits, ha, hb] at h
      omega

/-- Offsets produced by `parseOffset` lie within ±23:59 (1439 minutes),
absent offsets counting as zero. -/
lemma parseOffset_bounds (rest : List Char) (off : Option Int)
    (h : parseOffset rest = some off) :
    -1439 ≤ off.getD 0 ∧ off.getD 0 ≤ 1439 := by
  unfold parseOffset at h
  split at h
  · cases h
    decide
  · cases h
    decide
  · rename_i sign o1 o2 o3 o4
    cases h1 : twoDigits o1 o2 with
    | none => simp only [h1] at h; cases h
    | some oh =>
      cases h2 : twoDigits o3 o4 with
      | none => simp only [h1, h2] at h; cases h
      | some om =>
        have hoh := twoDigits_lt _ _ _ h1
        have hom := twoDigits_lt _ _ _ h2
        simp only [h1, h2] at h
        split at h
        · rename_i hrange
          split at h
          · cases h
            simp only [Option.getD_some]
            constructor <;> omega
          · split at h
            · cases h
              simp only [Option.getD_some]
              constructor <;> omega
            · cases h
        · cases h
  · cases h

/-- No month has more than 31 days. -/
lemma daysInMonth_le (y m : Nat) : daysInMonth y m ≤ 31 := by
  unfold daysInMonth
  split
  · split <;> omega
  · split <;> omega

/-- Any datetime produced by the parser has its fields in `datetime`'s
valid ranges, and an offset within ±23:59. -/
lemma parseDatetime_valid (s : String) (d : PyDatetime)
    (h : parseDatetime s = some d) :
    1 ≤ d.year ∧ d.year ≤ 9999 ∧ 1 ≤ d.month ∧ d.month ≤ 12 ∧
    1 ≤ d.day ∧ d.day ≤ 31 ∧ d.hour < 24 ∧ d.minute < 60 ∧
    d.second < 60 ∧ -1439 ≤ d.offsetMinutes.getD 0 ∧
    d.offsetMinutes.getD 0 ≤ 1439 := by
  unfold parseDatetime at h
  cases hc : parseCore s.data with
  | none => rw [hc] at h; cases h
  | some tup =>
    obtain ⟨y, mo, dd, hh, mi, se, rest⟩ := tup
    rw [hc] at h
    cases ho : parseOffset rest with
    | none => simp only [ho] at h; cases h
    | some off =>
      simp only [ho] at h
      have hob := parseOffset_bounds rest off ho
      unfold mkDatetime at h
      split at h
      · rename_i hcond
        obtain ⟨h1, h2, h3, h4, h5, h6, h7, h8, h9⟩ := hcond
        have h6b : dd ≤ 31 := le_trans h6 (daysInMonth_le y mo)
        injection h with h
        subst h
        exact ⟨h1, h2, h3, h4, h5, h6b, h7, h8, h9, hob.1, hob.2⟩
      · cases h

/-- `toUTC` when the shifted time stays inside the same day. -/
lemma toUTC_in_day (d : PyDatetime)
    (hA : (0 : Int) ≤ (d.hour : Int) * 60 + (d.minute : Int) -
        d.offsetMinutes.getD 0 ∧
      (d.hour : Int) * 60 + (d.minute : Int) - d.offsetMinutes.getD 0 <
        1440) :
    toUTC d = ⟨d.year, d.month, d.day,
      ((d.hour : Int) * 60 + (d.minute : Int) -
        d.offsetMinutes.getD 0).toNat / 60,
      ((d.hour : Int) * 60 + (d.minute : Int) -
        d.offsetMinutes.getD 0).toNat % 60, d.second, some 0⟩ := by
  simp only [toUTC]
  rw [if_pos hA]

/-- `toUTC` borrowing one day, mid-month. -/
lemma toUTC_prev_mid (d : PyDatetime)
    (hB : (d.hour : Int) * 60 + (d.minute : Int) -
      d.offsetMinutes.getD 0 < 0) (hdd : 1 < d.day) :
    toUTC d = ⟨d.year, d.month, d.day - 1,
      ((d.hour : Int) * 60 + (d.minute : Int) -
        d.offsetMinutes.getD 0 + 1440).toNat / 60,
      ((d.hour : Int) * 60 + (d.minute : Int) -
        d.offsetMinutes.getD 0 + 1440).toNat % 60, d.second, some 0⟩ := by
  simp only [toUTC]
  rw [if_neg (by omega), if_pos hB]
  simp [prevDay, hdd]

/-- `toUTC` borrowing one day across a month boundary. -/
lemma toUTC_prev_month (d : PyDatetime)
    (hB : (d.hour : Int) * 60 + (d.minute : Int) -
      d.offsetMinutes.getD 0 < 0) (hdd : ¬ 1 < d.day) (hm : 1 < d.month) :
    toUTC d = ⟨d.year, d.month - 1, daysInMonth d.year (d.month - 1),
      ((d.hour : Int) * 60 + (d.minute : Int) -
        d.offsetMinutes.getD 0 + 1440).toNat / 60,
      ((d.hour : Int) * 60 + (d.minute : Int) -
        d.offsetMinutes.getD 0 + 1440).toNat % 60, d.second, some 0⟩ := by
  simp only [toUTC]
  rw [if_neg (by omega), if_pos hB]
  simp [prevDay, hdd, hm]

/-- `toUTC` borrowing one day across a year boundary. -/
lemma toUTC_prev_year (d : PyDatetime)
    (hB : (d.hour : Int) * 60 + (d.minute : Int) -
      d.offsetMinutes.getD 0 < 0) (hdd : ¬ 1 < d.day) (hm : ¬ 1 < d.month) :
    toUTC d = ⟨d.year - 1, 12, 31,
      ((d.hour : Int) * 60 + (d.minute : Int) -
        d.offsetMinutes.getD 0 + 1440).toNat / 60,
      ((d.hour : Int) * 60 + (d.minute : Int) -
        d.offsetMinutes.getD 0 + 1440).toNat % 60, d.second, some 0⟩ := by
  simp only [toUTC]
  rw [if_neg (by omega), if_pos hB]
  simp [prevDay, hdd, hm]

/-- `toUTC` carrying one day, mid-month. -/
lemma toUTC_next_mid (d : PyDatetime)
    (hC : 1440 ≤ (d.hour : Int) * 60 + (d.minute : Int) -
      d.offsetMinutes.getD 0) (hdd : d.day < daysInMonth d.year d.month) :
    toUTC d = ⟨d.year, d.month, d.day + 1,
      ((d.hour : Int) * 60 + (d.minute : Int) -
        d.offsetMinutes.getD 0 - 1440).toNat / 60,
      ((d.hour : Int) * 60 + (d.minute : Int) -
        d.offsetMinutes.getD 0 - 1440).toNat % 60, d.second, some 0⟩ := by
  simp only [toUTC]
  rw [if_neg (by omega), if_neg (by omega)]
  simp [nextDay, hdd]

/-- `toUTC` carrying one day across a month boundary. -/
lemma toUTC_next_month (d : PyDatetime)
    (hC : 1440 ≤ (d.hour : Int) * 60 + (d.minute : Int) -
      d.offsetMinutes.getD 0) (hdd : ¬ d.day < daysInMonth d.year d.month)
    (hm : d.month < 12) :
    toUTC d = ⟨d.year, d.month + 1, 1,
      ((d.hour : Int) * 60 + (d.minute : Int) -
        d.offsetMinutes.getD 0 - 1440).toNat / 60,
      ((d.hour : Int) * 60 + (d.minute : Int) -
        d.offsetMinutes.getD 0 - 1440).toNat % 60, d.second, some 0⟩ := by
  simp only [toUTC]
  rw [if_neg (by omega), if_neg (by omega)]
  simp [nextDay, hdd, hm]

/-- `toUTC` carrying one day across a year boundary. -/
lemma toUTC_next_year (d : PyDatetime)
    (hC : 1440 ≤ (d.hour : Int) * 60 + (d.minute : Int) -
      d.offsetMinutes.getD 0) (hdd : ¬ d.day < daysInMonth d.year d.month)
    (hm : ¬ d.month < 12) :
    toUTC d = ⟨d.year + 1, 1, 1,
      ((d.hour : Int) * 60 + (d.minute : Int) -
        d.offsetMinutes.getD 0 - 1440).toNat / 60,
      ((d.hour : Int) * 60 + (d.minute : Int) -
        d.offsetMinutes.getD 0 - 1440).toNat % 60, d.second, some 0⟩ := by
  simp only [toUTC]
  rw [if_neg (by omega), if_neg (by omega)]
  simp [nextDay, hdd, hm]

/-- C5 counterexample: the code formats the parsed wall-clock fields
with a literal `Z` without converting to UTC, so an input with a
non-zero offset is misrepresented: `"2023-05-01T12:00:00+05:00"` (the
instant 07:00:00 UTC) is rendered `"2023-05-01T12:00:00Z"`, not the UTC
reformatting `"2023-05-01T07:00:00Z"`. -/
theorem format_created_at_not_utc_cx :
    format_created_at "2023-05-01T12:00:00+05:00" =
      some "2023-05-01T12:00:00Z" ∧
    format_created_at_utc "2023-05-01T12:00:00+05:00" =
      some "2023-05-01T07:00:00Z" ∧
    format_created_at "2023-05-01T12:00:00+05:00" ≠
      format_created_at_utc "2023-05-01T12:00:00+05:00" := by
  decide

/-- C5 as amended: for every accepted input the transform renders the
parsed timestamp's own wall-clock fields as `YYYY-MM-DDTHH:MM:SSZ`,
discarding the offset rather than converting; the output equals the
instant reformatted in UTC exactly when the parsed offset is zero or
absent; and the spec's example input `"2023-05-01T12:00:00+00:00"`
yields `"2023-05-01T12:00:00Z"`. -/
theorem format_created_at_wall_clock (s : String) (d : PyDatetime)
    (h : parseDatetime s = some d) :
    format_created_at s = some (strftimeZ d) ∧
    (format_created_at s = format_created_at_utc s ↔
      d.offsetMinutes.getD 0 = 0) ∧
    format_created_at "2023-05-01T12:00:00+00:00" =
      some "2023-05-01T12:00:00Z" := by
  obtain ⟨hy1, hy2, hm1, hm2, hd1, hd2, h24, h60, hs60, ho1, ho2⟩ :=
    parseDatetime_valid s d h
  refine ⟨by simp [format_created_at, h], ?_, by decide⟩
  constructor
  · intro hEq
    have hstr : strftimeZ d = strftimeZ (toUTC d) := by
      simp only [format_created_at, format_created_at_utc, h,
        Option.map_some', Option.some.injEq] at hEq
      exact hEq
    by_cases hA : (0 : Int) ≤ (d.hour : Int) * 60 + (d.minute : Int) -
        d.offsetMinutes.getD 0 ∧
        (d.hour : Int) * 60 + (d.minute : Int) -
          d.offsetMinutes.getD 0 < 1440
    · rw [toUTC_in_day d hA] at hstr
      obtain ⟨e1, e2, e3, e4, e5⟩ := strftimeZ_fields_eq d _ _ _ _ _ _ _
        (by omega) (by omega) (by omega) (by omega) (by omega) (by omega)
        (by omega) (by omega) (by omega) (by omega) hstr
      omega
    · by_cases hB : (d.hour : Int) * 60 + (d.minute : Int) -
          d.offsetMinutes.getD 0 < 0
      · by_cases hdd : 1 < d.day
        · rw [toUTC_prev_mid d hB hdd] at hstr
          obtain ⟨e1, e2, e3, e4, e5⟩ := strftimeZ_fields_eq d _ _ _ _ _ _
            _ (by omega) (by omega) (by omega) (by omega) (by omega)
            (by omega) (by omega) (by omega) (by omega) (by omega) hstr
          omega
        · by_cases hm : 1 < d.month
          · rw [toUTC_prev_month d hB hdd hm] at hstr
            have hdim := daysInMonth_le d.year (d.month - 1)
            obtain ⟨e1, e2, e3, e4, e5⟩ := strftimeZ_fields_eq d _ _ _ _ _
              _ _ (by omega) (by omega) (by omega) (by omega) (by omega)
              (by omega) (by omega) (by omega) (by omega) (by omega) hstr
            omega
          · rw [toUTC_prev_year d hB hdd hm] at hstr
            obtain ⟨e1, e2, e3, e4, e5⟩ := strftimeZ_fields_eq d _ _ _ _ _
              _ _ (by omega) (by omega) (by omega) (by omega) (by omega)
              (by omega) (by omega) (by omega) (by omega) (by omega) hstr
            omega
      · have hC : 1440 ≤ (d.hour : Int) * 60 + (d.minute : Int) -
            d.offsetMinutes.getD 0 := by omega
        by_cases hdd : d.day < daysInMonth d.year d.month
        · rw [toUTC_next_mid d hC hdd] at hstr
          have hdim := daysInMonth_le d.year d.month
          obtain ⟨e1, e2, e3, e4, e5⟩ := strftimeZ_fields_eq d _ _ _ _ _ _
            _ (by omega) (by omega) (by omega) (by omega) (by omega)
            (by omega) (by omega) (by omega) (by omega) (by omega) hstr
          omega
        · by_cases hm : d.month < 12
          · rw [toUTC_next_month d hC hdd hm] at hstr
            obtain ⟨e1, e2, e3, e4, e5⟩ := strftimeZ_fields_eq d _ _ _ _ _
              _ _ (by omega) (by omega) (by omega) (by omega) (by omega)
              (by omega) (by omega) (by omega) (by omega) (by omega) hstr
            omega
          · rw [toUTC_next_year d hC hdd hm] at hstr
            by_cases hy : d.year < 9999
            · obtain ⟨e1, e2, e3, e4, e5⟩ := strftimeZ_fields_eq d _ _ _ _
                _ _ _ (by omega) (by omega) (by omega) (by omega)
                (by omega) (by omega) (by omega) (by omega) (by omega)
                (by omega) hstr
              omega
            · have hy9 : d.year = 9999 := by omega
              have hdata := congrArg String.data hstr
              have sepDash : ("-" : String).data = ['-'] := rfl
              have sepT : ("T" : String).data = ['T'] := rfl
              have sepColon : (":" : String).data = [':'] := rfl
              simp only [strftimeZ, pad4, String.data_append, sepDash,
                sepT, sepColon, List.cons_append, List.nil_append,
                List.append_assoc] at hdata
              rw [hy9] at hdata
              have cL : (pad2 (9999 / 100)).data = ['9', '9'] := rfl
              have cR : (pad2 ((9999 + 1) / 100)).data = ['1', '0', '0'] :=
                rfl
              rw [cL, cR] at hdata
              simp only [List.cons_append, List.nil_append] at hdata
              injection hdata with hbad
              exact absurd hbad (by decide)
  · intro h0
    have hA : (0 : Int) ≤ (d.hour : Int) * 60 + (d.minute : Int) -
        d.offsetMinutes.getD 0 ∧
        (d.hour : Int) * 60 + (d.minute : Int) -
          d.offsetMinutes.getD 0 < 1440 := by omega
    have hfields : toUTC d =
        ⟨d.year, d.month, d.day, d.hour, d.minute, d.second, some 0⟩ := by
      rw [toUTC_in_day d hA]
      have e1 : ((d.hour : Int) * 60 + (d.minute : Int) -
          d.offsetMinutes.getD 0).toNat / 60 = d.hour := by omega
      have e2 : ((d.hour : Int) * 60 + (d.minute : Int) -
          d.offsetMinutes.getD 0).toNat % 60 = d.minute := by omega
      rw [e1, e2]
    simp [format_created_at, format_created_at_utc, h, hfields, strftimeZ]

/-- Witness for C5's amended claim at a `Z`-suffixed input. -/
theorem format_created_at_wall_clock_witness :
    format_created_at "2023-05-01T12:00:00Z" =
      some (strftimeZ ⟨2023, 5, 1, 12, 0, 0, some 0⟩) ∧
    (format_created_at "2023-05-01T12:00:00Z" =
        format_created_at_utc "2023-05-01T12:00:00Z" ↔
      (⟨2023, 5, 1, 12, 0, 0, some 0⟩ :
        PyDatetime).offsetMinutes.getD 0 = 0) ∧
    format_created_at "2023-05-01T12:00:00+00:00" =
      some "2023-05-01T12:00:00Z" :=
  format_created_at_wall_clock "2023-05-01T12:00:00Z"
    ⟨2023, 5, 1, 12, 0, 0, some 0⟩ (by decide)
